import Mathlib

/-!
Shallow embedding of the FlavourFusion Streamlit app (`Project Files/app.py`).

The app's logical core is embedded as pure Lean functions:
* `get_joke` / `jokes` — the fixed 12-element joke list and the random pick,
  modelled with an explicit index standing for `random.choice`;
* `buildPrompt` — the f-string prompt template of `recipe_generator`;
* `recipe_generator` — the generation call, parameterised by a `service`
  function standing for the external Gemini call; an exception is modelled as
  `Except.error`, caught and turned into the empty string (plus a flag
  recording that the error message was displayed);
* `save_recipe_to_history` — the history append;
* `download_recipe` / `recipeFileName` — the download payload and filename;
* `handleGenerate` — the generate-button handler, threading the session
  history explicitly and recording the user-visible effects;
* `appStartup` — the API-key check at module load.
-/

namespace FlavourFusion

/-- The fixed joke list of `get_joke` in `app.py` (12 literal strings). -/
def jokes : List String :=
  [ "Why don\x27t scientists trust atoms? Because they make up everything!",
    "Why did the scarecrow win an award? Because he was outstanding in his field!",
    "Why don\x27t skeletons fight each other? They don\x27t have the guts.",
    "What do you call fake spaghetti? An impasta!",
    "Why did the bicycle fall over? Because it was two-tired!",
    "Why did the math book look sad? Because it had too many problems.",
    "What do you call cheese that isn\x27t yours? Nacho cheese!",
    "Why can\x27t your nose be 12 inches long? Because then it would be a foot!",
    "Why did the golfer bring two pairs of pants? In case he got a hole in one!",
    "What do you call a bear with no teeth? A gummy bear!",
    "Why did the cookie go to the doctor? Because it felt crumbly!",
    "What did the chef say when he criticized the pasta? \x27It was an impasta!\x27" ]

/-- Embedding of `get_joke`: `random.choice(jokes)` picks an element at an
index supplied by the random generator; the index is made explicit, so the
function is a pure selection from the fixed list. -/
def get_joke (choice : Fin jokes.length) : String :=
  jokes.get choice

/-- The cuisine selectbox options in `app.py` ("Any" is the sentinel). -/
def cuisineOptions : List String :=
  ["Any", "Italian", "Indian", "Chinese", "Mexican", "Mediterranean",
   "Asian Fusion", "American", "French"]

/-- Fixed prompt text before the topic (f-string segment up to the first
interpolation, the quote written as an escape). -/
def promptPre : String :=
  "Write a detailed and engaging recipe blog post about \x27"

/-- Fixed prompt text between the topic and the word count (closing quote,
trailing space, newline, indentation). -/
def promptMid : String :=
  "\x27 \n    with approximately "

/-- Fixed prompt text right after the word count. -/
def promptWords : String :=
  " words. "

/-- Fixed tail of the prompt: the checklist of required sections and the
closing sentence, with the f-string's literal indentation. -/
def promptTail : String :=
  "\n    \n    Include:\n    - Brief introduction about the dish\n    - Ingredients list with quantities\n    - Step-by-step cooking instructions\n    - Tips and tricks\n    - Serving suggestions\n    - Nutritional information (approximate)\n    - Storage and reheating instructions\n    \n    Make it engaging, informative, and easy to follow."

/-- The conditional cuisine clause
`f'Focus on {cuisine_type} cuisine.' if cuisine_type else ''`: Python
truthiness makes both `None` and the empty string produce the empty clause. -/
def focusClause : Option String → String
  | none => ""
  | some c => if c = "" then "" else "Focus on " ++ c ++ " cuisine."

/-- The prompt f-string of `recipe_generator`, with `str(word_count)` rendered
by `Nat.repr` (decimal digits). -/
def buildPrompt (user_input : String) (word_count : Nat)
    (cuisine_type : Option String) : String :=
  promptPre ++ user_input ++ promptMid ++ Nat.repr word_count ++ promptWords
    ++ focusClause cuisine_type ++ promptTail

/-- The call-site filter `cuisine_filter = None if cuisine_type == "Any" else
cuisine_type` in the generate-button handler. -/
def cuisine_filter (cuisine_type : String) : Option String :=
  if cuisine_type = "Any" then none else some cuisine_type

/-- Embedding of `recipe_generator`. The external call
(`chat_session.send_message(prompt)` and reading `response.text`) is the
`service` parameter; `Except.error` stands for a raised exception. On success
the text is returned; on exception the function shows an error message
(second component `true`) and returns the empty string, as in the
`try`/`except` of the source. -/
def recipe_generator (service : String → Except String String)
    (user_input : String) (word_count : Nat)
    (cuisine_type : Option String) : String × Bool :=
  match service (buildPrompt user_input word_count cuisine_type) with
  | Except.ok text => (text, false)
  | Except.error _ => ("", true)

/-- One entry of `st.session_state.recipe_history` (the dict appended by
`save_recipe_to_history`). -/
structure RecipeRecord where
  timestamp : String
  topic : String
  cuisine : String
  word_count : Nat
  recipe : String
deriving DecidableEq

/-- Embedding of `save_recipe_to_history`: append one record to the session
history; `now` is the formatted `datetime.now()` timestamp. -/
def save_recipe_to_history (history : List RecipeRecord)
    (now topic recipe : String) (word_count : Nat) (cuisine : String) :
    List RecipeRecord :=
  history ++ [⟨now, topic, cuisine, word_count, recipe⟩]

/-- Embedding of `download_recipe`: `recipe_text.encode('utf-8')`, the UTF-8
bytes of the text. -/
def download_recipe (recipe_text : String) : List UInt8 :=
  recipe_text.data.flatMap String.utf8EncodeChar

/-- The filename `f"{user_input.replace(' ', '_')}_recipe.txt"` of the
download button; the single-character `str.replace` is the per-character
substitution of spaces by underscores. -/
def underscoreSpaces (s : String) : String :=
  String.mk (s.data.map (fun c => if c = ' ' then '_' else c))

/-- The download filename derived from the topic. -/
def recipeFileName (user_input : String) : String :=
  underscoreSpaces user_input ++ "_recipe.txt"

/-- Test `if not user_input.strip():` — true exactly when every character of
the topic is whitespace (the stripped string is empty). -/
def blankTopic (s : String) : Bool :=
  s.data.all (fun c => c.isWhitespace)

/-- User-visible effects of one press of the generate button: the warning for
a blank topic, the joke box, whether the generation request was issued, the
error message from `recipe_generator`'s `except` branch, the success message,
the rendered recipe markdown, and the offered download (bytes and filename). -/
structure Effects where
  warned : Bool
  jokeShown : Bool
  requestIssued : Bool
  errorShown : Bool
  successShown : Bool
  renderedRecipe : Option String
  download : Option (List UInt8 × String)
deriving DecidableEq

/-- Embedding of the generate-button handler (`if st.button(...)` block):
blank topic → warning only; otherwise the joke is shown, the cuisine is
filtered, `recipe_generator` runs, and every further effect (history append,
success message, rendered recipe, download button) is gated on the returned
string being non-empty (`if recipe:`). The session history is threaded
explicitly. -/
def handleGenerate (service : String → Except String String)
    (now user_input cuisine_type : String) (word_count : Nat)
    (history : List RecipeRecord) : List RecipeRecord × Effects :=
  if blankTopic user_input then
    (history, ⟨true, false, false, false, false, none, none⟩)
  else
    let gen := recipe_generator service user_input word_count
      (cuisine_filter cuisine_type)
    if gen.1 = "" then
      (history, ⟨false, true, true, gen.2, false, none, none⟩)
    else
      (save_recipe_to_history history now user_input gen.1 word_count
         cuisine_type,
       ⟨false, true, true, gen.2, true, some gen.1,
         some (download_recipe gen.1, recipeFileName user_input)⟩)

/-- Outcome of the module-load key check in `app.py`. -/
structure StartupOutcome where
  halted : Bool
  errorMessage : Option String
  uiShown : Bool
deriving DecidableEq

/-- The error text of the missing-key branch. -/
def missingKeyMessage : String :=
  "GOOGLE_GEMINI_API_KEY environment variable is not set. Please configure it to use this app."

/-- Embedding of the startup check: `api_key = os.environ.get(...)`;
`if not api_key:` (absent or empty, by truthiness) shows `st.error(...)` and
calls `st.stop()`, so the rest of the page never renders; otherwise the app
proceeds and the UI is shown. -/
def appStartup (envKey : Option String) : StartupOutcome :=
  match envKey with
  | none => ⟨true, some missingKeyMessage, false⟩
  | some k =>
    if k = "" then ⟨true, some missingKeyMessage, false⟩
    else ⟨false, none, true⟩

/-- One button press's inputs for a run of several generations. -/
structure GenCall where
  now : String
  topic : String
  cuisine : String
  word_count : Nat
deriving DecidableEq

/-- Run a sequence of button presses, each with its own service behaviour,
threading the session history. -/
def runCalls : List (GenCall × (String → Except String String)) →
    List RecipeRecord → List RecipeRecord
  | [], history => history
  | (c, s) :: rest, history =>
    runCalls rest (handleGenerate s c.now c.topic c.cuisine c.word_count history).1

/-- The record that a successful button press appends: the call's timestamp
and raw inputs together with the text returned for it by
`recipe_generator`. -/
def mkRecord (p : GenCall × (String → Except String String)) : RecipeRecord :=
  ⟨p.1.now, p.1.topic, p.1.cuisine, p.1.word_count,
   (recipe_generator p.2 p.1.topic p.1.word_count
     (cuisine_filter p.1.cuisine)).1⟩

/-- A concrete two-press run used to instantiate the history property. -/
def twoCalls : List (GenCall × (String → Except String String)) :=
  [(⟨"t1", "Pasta", "Italian", 300⟩, fun _ => Except.ok "recipe one"),
   (⟨"t2", "Tacos", "Any", 400⟩, fun _ => Except.ok "recipe two")]

/-- State-passing form of the prompt construction: the source expression
reads and writes no session state, so the threaded history passes through
unchanged. -/
def buildPromptS (history : List RecipeRecord) (user_input : String)
    (word_count : Nat) (cuisine_type : Option String) :
    String × List RecipeRecord :=
  (buildPrompt user_input word_count cuisine_type, history)

/-- Substring containment, on the character lists of the strings. -/
def strContains (s pat : String) : Prop :=
  pat.data <:+: s.data

instance (s pat : String) : Decidable (strContains s pat) :=
  List.decidableInfix pat.data s.data

/-- The prompt that one press of the generate button sends for a given raw
cuisine selection (`none` models calling `recipe_generator` with its default
absent cuisine): the call site applies `cuisine_filter` first. -/
def promptFor (topic : String) (wc : Nat) (cuisine : Option String) : String :=
  buildPrompt topic wc (Option.bind cuisine cuisine_filter)

/-- The cuisine clause obligation of the prompt-builder contract: when a
cuisine is supplied, the prompt contains its name exactly when it is not the
sentinel. -/
def cuisineClauseOk (P : String) : Option String → Prop
  | none => True
  | some s => strContains P s ↔ s ≠ "Any"

set_option maxRecDepth 80000

/-- Characters produced by `Nat.digitChar` are never the letter `A`. -/
lemma digitChar_ne_A (n : Nat) : Nat.digitChar n ≠ 'A' := by
  rcases Nat.lt_or_ge n 16 with h | h
  · interval_cases n <;> decide
  · unfold Nat.digitChar
    repeat rw [if_neg (by omega)]
    decide

/-- No character put out by `Nat.toDigitsCore` in base 10 is the letter `A`. -/
lemma toDigitsCore_ne_A (fuel : Nat) : ∀ (n : Nat) (acc : List Char),
    (∀ c ∈ acc, c ≠ 'A') → ∀ c ∈ Nat.toDigitsCore 10 fuel n acc, c ≠ 'A' := by
  induction fuel with
  | zero =>
    intro n acc hacc c hc
    exact hacc c hc
  | succ fuel ih =>
    intro n acc hacc c hc
    simp only [Nat.toDigitsCore] at hc
    by_cases h10 : n / 10 = 0
    · rw [if_pos h10] at hc
      rcases List.mem_cons.mp hc with rfl | hmem
      · exact digitChar_ne_A _
      · exact hacc c hmem
    · rw [if_neg h10] at hc
      refine ih (n / 10) (Nat.digitChar (n % 10) :: acc) ?_ c hc
      intro x hx
      rcases List.mem_cons.mp hx with rfl | hx
      · exact digitChar_ne_A _
      · exact hacc x hx

/-- The decimal rendering of a natural number never contains the letter `A`. -/
lemma repr_not_mem_A (n : Nat) : 'A' ∉ (Nat.repr n).data := by
  intro hmem
  have h : (Nat.repr n).data = Nat.toDigitsCore 10 (n + 1) n [] := rfl
  rw [h] at hmem
  exact toDigitsCore_ne_A (n + 1) n [] (by intro c hc; cases hc) 'A' hmem rfl

/-- Character data of the built prompt, as a right-nested concatenation of
its seven segments. -/
lemma buildPrompt_data (t : String) (wc : Nat) (c : Option String) :
    (buildPrompt t wc c).data = promptPre.data ++ (t.data ++ (promptMid.data ++
      ((Nat.repr wc).data ++ (promptWords.data ++
        ((focusClause c).data ++ promptTail.data))))) := by
  simp [buildPrompt, List.append_assoc]

/-- An occurrence of a pattern with head `c` in `a ++ r` lies entirely in `r`
when `c` does not occur in `a`. -/
lemma infix_append_right_of_head_notMem {α : Type} {c : α} {q a r : List α}
    (hc : c ∉ a) (h : c :: q <:+: a ++ r) : c :: q <:+: r := by
  induction a with
  | nil => simpa using h
  | cons x a ih =>
    rw [List.cons_append] at h
    rcases List.infix_cons_iff.mp h with hpre | hrest
    · rcases List.cons_prefix_cons.mp hpre with ⟨rfl, -⟩
      exact absurd (List.mem_cons_self _ _) hc
    · exact ih (fun hm => hc (List.mem_cons_of_mem _ hm)) hrest

/-- A three-character occurrence in `T ++ (d :: bs)` lies entirely in `T`
when its head occurs nowhere in `d :: bs` and `d` matches neither of the two
remaining pattern characters (so no occurrence can straddle the boundary). -/
lemma infix_append_left_of_three {α : Type} {c₀ c₁ c₂ d : α} {T bs : List α}
    (hd₁ : d ≠ c₁) (hd₂ : d ≠ c₂) (hc : c₀ ∉ d :: bs)
    (h : [c₀, c₁, c₂] <:+: T ++ d :: bs) : [c₀, c₁, c₂] <:+: T := by
  induction T with
  | nil =>
    exact absurd (h.sublist.subset (by simp)) hc
  | cons x T ih =>
    rw [List.cons_append] at h
    rcases List.infix_cons_iff.mp h with hpre | hrest
    · rcases List.cons_prefix_cons.mp hpre with ⟨rfl, hpre2⟩
      cases T with
      | nil =>
        rw [List.nil_append] at hpre2
        rcases List.cons_prefix_cons.mp hpre2 with ⟨h1, -⟩
        exact absurd h1.symm hd₁
      | cons y T2 =>
        rw [List.cons_append] at hpre2
        rcases List.cons_prefix_cons.mp hpre2 with ⟨rfl, hpre3⟩
        cases T2 with
        | nil =>
          rw [List.nil_append] at hpre3
          rcases List.cons_prefix_cons.mp hpre3 with ⟨h2, -⟩
          exact absurd h2.symm hd₂
        | cons z T3 =>
          rw [List.cons_append] at hpre3
          rcases List.cons_prefix_cons.mp hpre3 with ⟨rfl, -⟩
          exact (show [c₀, c₁, c₂] <+: c₀ :: c₁ :: c₂ :: T3 from ⟨T3, rfl⟩).isInfix
    · obtain ⟨s, t, hst⟩ := ih hrest
      exact ⟨x :: s, t, congrArg (fun l => x :: l) hst⟩

/-- If the topic does not contain the sentinel string `Any`, neither does the
prompt built with no cuisine clause: the fixed template text and the decimal
word count contain no letter `A`, and no occurrence can straddle the splice
boundaries (the character right after the topic is a quote). -/
lemma prompt_no_Any (t : String) (wc : Nat) (h : ¬ strContains t "Any") :
    ¬ strContains (buildPrompt t wc none) "Any" := by
  intro hcon
  apply h
  unfold strContains at hcon ⊢
  rw [show "Any".data = ['A', 'n', 'y'] from rfl] at hcon ⊢
  rw [buildPrompt_data] at hcon
  have h1 : ('A' : Char) ∉ promptPre.data := by decide
  have hcon2 := infix_append_right_of_head_notMem h1 hcon
  rw [show promptMid.data ++ ((Nat.repr wc).data ++ (promptWords.data ++
        ((focusClause none).data ++ promptTail.data)))
      = '\x27' :: (" \n    with approximately ".data ++ ((Nat.repr wc).data ++
        (promptWords.data ++ ((focusClause none).data ++ promptTail.data))))
    from by rw [show promptMid.data = '\x27' :: " \n    with approximately ".data
      from rfl, List.cons_append]] at hcon2
  refine infix_append_left_of_three (by decide) (by decide) ?_ hcon2
  intro hmem
  simp only [List.mem_cons, List.mem_append] at hmem
  rcases hmem with h1 | h2 | h3 | h4 | h5 | h6
  · exact absurd h1 (by decide)
  · exact absurd h2 (by decide)
  · exact repr_not_mem_A wc h3
  · exact absurd h4 (by decide)
  · exact absurd h5 (by decide)
  · exact absurd h6 (by decide)

/-- The built prompt contains the topic verbatim. -/
lemma prompt_contains_topic (t : String) (wc : Nat) (c : Option String) :
    strContains (buildPrompt t wc c) t :=
  ⟨promptPre.data,
   promptMid.data ++ ((Nat.repr wc).data ++ (promptWords.data ++
     ((focusClause c).data ++ promptTail.data))),
   by rw [buildPrompt_data]; simp [List.append_assoc]⟩

/-- The built prompt contains the decimal rendering of the word count. -/
lemma prompt_contains_wordCount (t : String) (wc : Nat) (c : Option String) :
    strContains (buildPrompt t wc c) (Nat.repr wc) :=
  ⟨promptPre.data ++ (t.data ++ promptMid.data),
   promptWords.data ++ ((focusClause c).data ++ promptTail.data),
   by rw [buildPrompt_data]; simp [List.append_assoc]⟩

/-- Any substring of the fixed tail (in particular each checklist line) is a
substring of the built prompt. -/
lemma prompt_contains_section (t : String) (wc : Nat) (c : Option String)
    (sect : String) (hs : sect.data <:+: promptTail.data) :
    strContains (buildPrompt t wc c) sect := by
  unfold strContains
  refine hs.trans ⟨promptPre.data ++ (t.data ++ (promptMid.data ++
    ((Nat.repr wc).data ++ (promptWords.data ++ (focusClause c).data)))), [], ?_⟩
  rw [buildPrompt_data]
  simp [List.append_assoc]

/-- The built prompt contains a supplied non-empty cuisine name (inside the
clause `Focus on … cuisine.`). -/
lemma prompt_contains_cuisine (t : String) (wc : Nat) (s : String)
    (h0 : s ≠ "") : strContains (buildPrompt t wc (some s)) s := by
  unfold strContains
  refine ⟨promptPre.data ++ (t.data ++ (promptMid.data ++ ((Nat.repr wc).data ++
    (promptWords.data ++ "Focus on ".data)))),
    " cuisine.".data ++ promptTail.data, ?_⟩
  rw [buildPrompt_data]
  simp [focusClause, h0, List.append_assoc]

/-- Handler behaviour on a blank topic: warning only, history untouched. -/
lemma handleGenerate_blank (service : String → Except String String)
    (now user_input cuisine_type : String) (word_count : Nat)
    (history : List RecipeRecord) (hblank : blankTopic user_input = true) :
    handleGenerate service now user_input cuisine_type word_count history =
      (history, ⟨true, false, false, false, false, none, none⟩) := by
  simp [handleGenerate, hblank]

/-- Handler behaviour when the service call raises: the exception is caught,
an error message is shown, and nothing else happens. -/
lemma handleGenerate_err (service : String → Except String String)
    (now user_input cuisine_type : String) (word_count : Nat)
    (history : List RecipeRecord) (msg : String)
    (hblank : blankTopic user_input = false)
    (hsvc : service (buildPrompt user_input word_count
      (cuisine_filter cuisine_type)) = Except.error msg) :
    handleGenerate service now user_input cuisine_type word_count history =
      (history, ⟨false, true, true, true, false, none, none⟩) := by
  simp [handleGenerate, hblank, recipe_generator, hsvc]

/-- Handler behaviour when the service call succeeds but returns the empty
string: every post-generation effect is skipped and no error is shown. -/
lemma handleGenerate_emptyText (service : String → Except String String)
    (now user_input cuisine_type : String) (word_count : Nat)
    (history : List RecipeRecord)
    (hblank : blankTopic user_input = false)
    (hsvc : service (buildPrompt user_input word_count
      (cuisine_filter cuisine_type)) = Except.ok "") :
    handleGenerate service now user_input cuisine_type word_count history =
      (history, ⟨false, true, true, false, false, none, none⟩) := by
  simp [handleGenerate, hblank, recipe_generator, hsvc]

/-- Handler behaviour on a successful generation with non-empty text: the
record is appended with the raw cuisine, the success message, rendered
recipe and download offer all appear. -/
lemma handleGenerate_ok (service : String → Except String String)
    (now user_input cuisine_type : String) (word_count : Nat)
    (history : List RecipeRecord) (t : String)
    (hblank : blankTopic user_input = false)
    (hsvc : service (buildPrompt user_input word_count
      (cuisine_filter cuisine_type)) = Except.ok t)
    (ht : t ≠ "") :
    handleGenerate service now user_input cuisine_type word_count history =
      (history ++ [⟨now, user_input, cuisine_type, word_count, t⟩],
       ⟨false, true, true, false, true, some t,
         some (download_recipe t, recipeFileName user_input)⟩) := by
  simp [handleGenerate, hblank, recipe_generator, hsvc, ht,
    save_recipe_to_history]

/-- Success behaviour of the handler, phrased through the non-emptiness of
the `recipe_generator` result alone. -/
lemma handleGenerate_ok_of_ne (service : String → Except String String)
    (now user_input cuisine_type : String) (word_count : Nat)
    (history : List RecipeRecord)
    (hblank : blankTopic user_input = false)
    (hne : (recipe_generator service user_input word_count
      (cuisine_filter cuisine_type)).1 ≠ "") :
    (handleGenerate service now user_input cuisine_type word_count
      history).1 =
      history ++ [⟨now, user_input, cuisine_type, word_count,
        (recipe_generator service user_input word_count
          (cuisine_filter cuisine_type)).1⟩] := by
  rcases h : service (buildPrompt user_input word_count
      (cuisine_filter cuisine_type)) with msg | t
  · exfalso
    apply hne
    simp [recipe_generator, h]
  · have ht : t ≠ "" := by
      intro h0
      apply hne
      simp [recipe_generator, h, h0]
    rw [handleGenerate_ok service now user_input cuisine_type word_count
      history t hblank h ht]
    simp [recipe_generator, h]

/-- Running a list of all-successful calls appends exactly the expected
records, in call order. -/
lemma runCalls_append (calls : List (GenCall × (String → Except String String)))
    (hok : ∀ p ∈ calls, blankTopic p.1.topic = false ∧
      (recipe_generator p.2 p.1.topic p.1.word_count
        (cuisine_filter p.1.cuisine)).1 ≠ "") :
    ∀ history, runCalls calls history = history ++ calls.map mkRecord := by
  induction calls with
  | nil =>
    intro history
    simp [runCalls]
  | cons p rest ih =>
    intro history
    obtain ⟨c, s⟩ := p
    rcases hok _ (List.mem_cons_self _ _) with ⟨hblank, hne⟩
    rw [runCalls]
    rw [handleGenerate_ok_of_ne s c.now c.topic c.cuisine c.word_count
      history hblank hne]
    rw [ih (fun q hq => hok q (List.mem_cons_of_mem _ hq))]
    simp [mkRecord]

/-- C1: the claim as frozen is false. With topic `Any Fish` and the sentinel
cuisine `Any` selected (so the call site filters the cuisine to absent and
the claim requires the prompt not to contain the cuisine name `Any`), the
prompt does contain `Any`: the topic is spliced verbatim into the prompt. -/
theorem prompt_builder_sentinel_topic_counterexample :
    Option.bind (some "Any") cuisine_filter = none ∧
    strContains (promptFor "Any Fish" 500 (some "Any")) "Any" :=
  ⟨rfl, by decide⟩

/-- C1 (amended): for every non-empty topic that does not itself contain the
sentinel string `Any`, every word count in `[100, 5000]`, and every cuisine
absent or drawn from the selectbox list, the prompt built by
`recipe_generator` (after the call-site cuisine filter) contains the topic,
the decimal word count and each line of the fixed checklist of required
sections, and contains a supplied cuisine name exactly when it is not the
`Any` sentinel. -/
theorem prompt_builder_contract (topic : String) (wc : Nat)
    (cuisine : Option String) (htopic : topic ≠ "")
    (hlo : 100 ≤ wc) (hhi : wc ≤ 5000)
    (hc : cuisine = none ∨ ∃ s, s ∈ cuisineOptions ∧ cuisine = some s)
    (hany : ¬ strContains topic "Any") :
    strContains (promptFor topic wc cuisine) topic ∧
    strContains (promptFor topic wc cuisine) (Nat.repr wc) ∧
    strContains (promptFor topic wc cuisine) "- Brief introduction about the dish" ∧
    strContains (promptFor topic wc cuisine) "- Ingredients list with quantities" ∧
    strContains (promptFor topic wc cuisine) "- Step-by-step cooking instructions" ∧
    strContains (promptFor topic wc cuisine) "- Tips and tricks" ∧
    strContains (promptFor topic wc cuisine) "- Serving suggestions" ∧
    strContains (promptFor topic wc cuisine) "- Nutritional information (approximate)" ∧
    strContains (promptFor topic wc cuisine) "- Storage and reheating instructions" ∧
    cuisineClauseOk (promptFor topic wc cuisine) cuisine := by
  refine ⟨prompt_contains_topic topic wc _, prompt_contains_wordCount topic wc _,
    prompt_contains_section topic wc _ _ (by decide),
    prompt_contains_section topic wc _ _ (by decide),
    prompt_contains_section topic wc _ _ (by decide),
    prompt_contains_section topic wc _ _ (by decide),
    prompt_contains_section topic wc _ _ (by decide),
    prompt_contains_section topic wc _ _ (by decide),
    prompt_contains_section topic wc _ _ (by decide), ?_⟩
  cases cuisine with
  | none => trivial
  | some s =>
    have hs : s ∈ cuisineOptions := by
      rcases hc with h | ⟨s', hs', heq⟩
      · exact absurd h (by simp)
      · injection heq with h2
        subst h2
        exact hs'
    show strContains (promptFor topic wc (some s)) s ↔ s ≠ "Any"
    by_cases hA : s = "Any"
    · subst hA
      have hnone : promptFor topic wc (some "Any") = buildPrompt topic wc none := rfl
      constructor
      · intro hcontra
        rw [hnone] at hcontra
        exact absurd hcontra (prompt_no_Any topic wc hany)
      · intro hne
        exact absurd rfl hne
    · have hsome : promptFor topic wc (some s) = buildPrompt topic wc (some s) := by
        simp [promptFor, cuisine_filter, hA]
      have hne : s ≠ "" := fun h0 => absurd (h0 ▸ hs) (by decide)
      constructor
      · intro _
        exact hA
      · intro _
        rw [hsome]
        exact prompt_contains_cuisine topic wc s hne

/-- Witness for C1 (amended) at topic `Paneer Tikka`, word count 500 and
cuisine `Indian`. -/
theorem prompt_builder_contract_witness :
    strContains (promptFor "Paneer Tikka" 500 (some "Indian")) "Paneer Tikka" ∧
    strContains (promptFor "Paneer Tikka" 500 (some "Indian")) (Nat.repr 500) ∧
    strContains (promptFor "Paneer Tikka" 500 (some "Indian")) "- Brief introduction about the dish" ∧
    strContains (promptFor "Paneer Tikka" 500 (some "Indian")) "- Ingredients list with quantities" ∧
    strContains (promptFor "Paneer Tikka" 500 (some "Indian")) "- Step-by-step cooking instructions" ∧
    strContains (promptFor "Paneer Tikka" 500 (some "Indian")) "- Tips and tricks" ∧
    strContains (promptFor "Paneer Tikka" 500 (some "Indian")) "- Serving suggestions" ∧
    strContains (promptFor "Paneer Tikka" 500 (some "Indian")) "- Nutritional information (approximate)" ∧
    strContains (promptFor "Paneer Tikka" 500 (some "Indian")) "- Storage and reheating instructions" ∧
    cuisineClauseOk (promptFor "Paneer Tikka" 500 (some "Indian")) (some "Indian") :=
  prompt_builder_contract "Paneer Tikka" 500 (some "Indian") (by decide)
    (by decide) (by decide) (Or.inr ⟨"Indian", by decide, rfl⟩) (by decide)

/-- C2: when the external generation call raises, `recipe_generator` catches
the exception, shows the error message, and returns the empty string, and
the caller appends nothing to the session history. -/
theorem generation_failure_no_append (service : String → Except String String)
    (now user_input cuisine_type : String) (word_count : Nat)
    (history : List RecipeRecord) (msg : String)
    (hblank : blankTopic user_input = false)
    (hsvc : service (buildPrompt user_input word_count
      (cuisine_filter cuisine_type)) = Except.error msg) :
    recipe_generator service user_input word_count
      (cuisine_filter cuisine_type) = ("", true) ∧
    (handleGenerate service now user_input cuisine_type word_count history).1
      = history := by
  constructor
  · simp [recipe_generator, hsvc]
  · rw [handleGenerate_err service now user_input cuisine_type word_count
      history msg hblank hsvc]

/-- Witness for C2 with a service that always raises. -/
theorem generation_failure_no_append_witness :
    recipe_generator (fun _ => Except.error "boom") "Pasta" 500
      (cuisine_filter "Any") = ("", true) ∧
    (handleGenerate (fun _ => Except.error "boom") "t0" "Pasta" "Any" 500
      []).1 = [] :=
  generation_failure_no_append (fun _ => Except.error "boom") "t0" "Pasta"
    "Any" 500 [] "boom" (by decide) rfl

/-- C4: pressing generate with a topic that is empty or all whitespace
produces the warning as the only observable effect — no joke, no request,
no history append, no recipe, no download. -/
theorem blank_topic_warning_only (service : String → Except String String)
    (now user_input cuisine_type : String) (word_count : Nat)
    (history : List RecipeRecord)
    (hblank : blankTopic user_input = true) :
    handleGenerate service now user_input cuisine_type word_count history =
      (history, ⟨true, false, false, false, false, none, none⟩) :=
  handleGenerate_blank service now user_input cuisine_type word_count history
    hblank

/-- Witness for C4 at the all-whitespace topic. -/
theorem blank_topic_warning_only_witness :
    handleGenerate (fun _ => Except.ok "text") "t0" "   " "Italian" 500 [] =
      ([], ⟨true, false, false, false, false, none, none⟩) :=
  blank_topic_warning_only (fun _ => Except.ok "text") "t0" "   " "Italian"
    500 [] (by decide)

/-- C3: after a sequence of successful generations the history holds exactly
one record per call, appended at the end in call order, with each record's
timestamp, topic, cuisine, word count and recipe equal to the corresponding
call's inputs and output; starting from an empty session the length equals
the number of calls. -/
theorem history_recorder_correct
    (calls : List (GenCall × (String → Except String String)))
    (history : List RecipeRecord)
    (hok : ∀ p ∈ calls, blankTopic p.1.topic = false ∧
      (recipe_generator p.2 p.1.topic p.1.word_count
        (cuisine_filter p.1.cuisine)).1 ≠ "") :
    runCalls calls history = history ++ calls.map mkRecord ∧
    (runCalls calls []).length = calls.length := by
  refine ⟨runCalls_append calls hok history, ?_⟩
  rw [runCalls_append calls hok []]
  simp

/-- Witness for C3 with two successful calls. -/
theorem history_recorder_correct_witness :
    runCalls twoCalls [] = [] ++ twoCalls.map mkRecord ∧
    (runCalls twoCalls []).length = twoCalls.length :=
  history_recorder_correct twoCalls [] (by
    intro p hp
    rcases List.mem_cons.mp hp with rfl | hp
    · exact ⟨by decide, by decide⟩
    · rcases List.mem_cons.mp hp with rfl | hp
      · exact ⟨by decide, by decide⟩
      · cases hp)

/-- C5: on every successful generation the offered download consists of the
UTF-8 bytes of exactly the rendered recipe text, under the filename obtained
from the topic by replacing each space with an underscore and appending the
fixed suffix `_recipe.txt`. -/
theorem download_bytes_and_filename (service : String → Except String String)
    (now user_input cuisine_type : String) (word_count : Nat)
    (history : List RecipeRecord) (t : String)
    (hblank : blankTopic user_input = false)
    (hsvc : service (buildPrompt user_input word_count
      (cuisine_filter cuisine_type)) = Except.ok t)
    (ht : t ≠ "") :
    (handleGenerate service now user_input cuisine_type word_count
      history).2.renderedRecipe = some t ∧
    (handleGenerate service now user_input cuisine_type word_count
      history).2.download =
      some (t.data.flatMap String.utf8EncodeChar,
        String.mk (user_input.data.map
          (fun c => if c = ' ' then '_' else c)) ++ "_recipe.txt") := by
  rw [handleGenerate_ok service now user_input cuisine_type word_count
    history t hblank hsvc ht]
  exact ⟨rfl, rfl⟩

/-- Witness for C5 at a concrete successful generation. -/
theorem download_bytes_and_filename_witness :
    (handleGenerate (fun _ => Except.ok "Boil water.") "t0"
      "Thai Green Curry" "Any" 500 []).2.renderedRecipe =
        some "Boil water." ∧
    (handleGenerate (fun _ => Except.ok "Boil water.") "t0"
      "Thai Green Curry" "Any" 500 []).2.download =
      some ((String.data "Boil water.").flatMap String.utf8EncodeChar,
        String.mk ((String.data "Thai Green Curry").map
          (fun c => if c = ' ' then '_' else c)) ++ "_recipe.txt") :=
  download_bytes_and_filename (fun _ => Except.ok "Boil water.") "t0"
    "Thai Green Curry" "Any" 500 [] "Boil water." (by decide) rfl (by decide)

/-- C6: the claim as frozen is false in its second half. The missing-key
branch does produce a user-visible message: `st.error(...)` runs before
`st.stop()`, so the fatal startup case is not a silent one. -/
theorem startup_missing_key_counterexample :
    (appStartup none).halted = true ∧
    (appStartup none).errorMessage = some missingKeyMessage :=
  ⟨rfl, rfl⟩

/-- C6 (amended): if the API-credential environment variable is absent (or
empty, by Python truthiness) at startup, execution halts before the app UI
is shown, and a user-visible error message is emitted — so this failure
path, like every other, produces a user-visible message. -/
theorem startup_halts_with_message (envKey : Option String)
    (h : envKey = none ∨ envKey = some "") :
    appStartup envKey = ⟨true, some missingKeyMessage, false⟩ := by
  rcases h with rfl | rfl
  · rfl
  · rfl

/-- Witness for C6 (amended) at the absent variable. -/
theorem startup_halts_with_message_witness :
    appStartup none = ⟨true, some missingKeyMessage, false⟩ :=
  startup_halts_with_message none (Or.inl rfl)

/-- C7: the joke list has exactly 12 elements, every invocation of
`get_joke` (at any random index) returns a member of that fixed list, and
every member of the list is returned at some index, so none is structurally
excluded; the function reads no input besides the random index and mutates
no state (it is a pure selection). -/
theorem joke_picker_correct :
    jokes.length = 12 ∧
    (∀ i : Fin jokes.length, get_joke i ∈ jokes) ∧
    (∀ j ∈ jokes, ∃ i : Fin jokes.length, get_joke i = j) := by
  refine ⟨rfl, fun i => List.mem_iff_get.mpr ⟨i, rfl⟩, fun j hj => ?_⟩
  obtain ⟨n, hn⟩ := List.mem_iff_get.mp hj
  exact ⟨n, hn⟩

/-- Witness for C7: one member of the list is hit. -/
theorem joke_picker_correct_witness :
    ∃ i : Fin jokes.length,
      get_joke i = "What do you call fake spaghetti? An impasta!" :=
  joke_picker_correct.2.2 _ (by decide)

/-- C8: prompt construction is deterministic and side-effect free — with the
session history threaded explicitly, two invocations on identical inputs in
arbitrary session states build the identical string, and the state passes
through unchanged (the source expression references no session state). -/
theorem prompt_build_pure (history1 history2 : List RecipeRecord)
    (topic : String) (wc : Nat) (cuisine : Option String) :
    (buildPromptS history1 topic wc cuisine).1 =
      (buildPromptS history2 topic wc cuisine).1 ∧
    (buildPromptS history1 topic wc cuisine).2 = history1 :=
  ⟨rfl, rfl⟩

/-- C9: the record saved on a successful generation stores the raw selectbox
cuisine value — for the sentinel selection the literal string `Any` — while
the sentinel is filtered to absent only for prompt construction. -/
theorem history_stores_raw_cuisine (service : String → Except String String)
    (now user_input cuisine_type : String) (word_count : Nat)
    (history : List RecipeRecord) (t : String)
    (hblank : blankTopic user_input = false)
    (hsvc : service (buildPrompt user_input word_count
      (cuisine_filter cuisine_type)) = Except.ok t)
    (ht : t ≠ "") :
    cuisine_filter "Any" = none ∧
    (handleGenerate service now user_input cuisine_type word_count
      history).1 =
      history ++ [⟨now, user_input, cuisine_type, word_count, t⟩] := by
  refine ⟨rfl, ?_⟩
  rw [handleGenerate_ok service now user_input cuisine_type word_count
    history t hblank hsvc ht]

/-- Witness for C9 with the sentinel cuisine selected. -/
theorem history_stores_raw_cuisine_witness :
    cuisine_filter "Any" = none ∧
    (handleGenerate (fun _ => Except.ok "stir") "t0" "Stew" "Any" 500
      []).1 = [] ++ [⟨"t0", "Stew", "Any", 500, "stir"⟩] :=
  history_stores_raw_cuisine (fun _ => Except.ok "stir") "t0" "Stew" "Any"
    500 [] "stir" (by decide) rfl (by decide)

/-- C10: a successful generation call that returns empty text is inert at
the caller: the history is unchanged and no success message, rendered
recipe, download offer or error message appears — every post-generation
effect is gated on the returned string being non-empty. -/
theorem empty_generation_inert (service : String → Except String String)
    (now user_input cuisine_type : String) (word_count : Nat)
    (history : List RecipeRecord)
    (hblank : blankTopic user_input = false)
    (hsvc : service (buildPrompt user_input word_count
      (cuisine_filter cuisine_type)) = Except.ok "") :
    handleGenerate service now user_input cuisine_type word_count history =
      (history, ⟨false, true, true, false, false, none, none⟩) :=
  handleGenerate_emptyText service now user_input cuisine_type word_count
    history hblank hsvc

/-- Witness for C10 at a concrete empty success. -/
theorem empty_generation_inert_witness :
    handleGenerate (fun _ => Except.ok "") "t0" "Pasta" "French" 500 [] =
      ([], ⟨false, true, true, false, false, none, none⟩) :=
  empty_generation_inert (fun _ => Except.ok "") "t0" "Pasta" "French" 500
    [] (by decide) rfl

end FlavourFusion
